import Mathlib

/-!
# Verification of the SAA-manifold core against its specification

Shallow embedding of the numerical core of the `saa-manifold` repository:
the coordinate / flux value objects (`src/backend/src/domain/value_objects`),
the `SAAAnomaly` entity (`src/backend/src/domain/entities/saa_anomaly.py`),
the IGRF coordinate adapter
(`src/backend/src/infrastructure/adapters/igrf_coordinate_adapter.py`), and the
application services (anomaly detection, manifold generation, analysis
orchestration, `src/backend/src/application/services`).

Python floats are modelled as real numbers; a Python function that can raise
is modelled as a function into `Except PyErr`; `try/except` blocks become
explicit matches on the `Except` result.  Entity bookkeeping that no claim
touches (uuid identities, detection timestamps, the internal domain-event
list, `temporal_stability`, `drift_rate`) is omitted from the entity record;
all numeric fields and all validation checks are kept.
-/

open Classical

noncomputable section

/-- Exception kinds raised by the embedded code.  The Python code raises
`ValueError` (value-object validation), `AnalysisError`,
`AnomalyDetectionError`, `ManifoldGenerationError`, `TransformationError`,
`InvalidEpochError` and, implicitly, `RecursionError` (the
`geographic_to_geomagnetic` / `calculate_l_shell` mutual recursion).
Messages carried by the exceptions are not modelled, only their type. -/
inductive PyErr where
  | valueError
  | analysisError
  | anomalyDetectionError
  | manifoldGenerationError
  | transformationError
  | invalidEpochError
  | recursionError
  | zeroDivisionError
  | indexError
  deriving DecidableEq, Repr

/-- `True` exactly on the `Except.ok` constructor. -/
def okE {ε α : Type _} : Except ε α → Bool
  | .ok _ => true
  | .error _ => false

/-! ## Timestamps

`datetime.datetime` values are compared lexicographically by
(year, month, day, hour, minute, second); that is all the adapter uses
(`_valid_epoch_range` comparison and `epoch.year`). -/

structure PyDateTime where
  year : Int
  month : Nat
  day : Nat
  hour : Nat
  minute : Nat
  second : Nat
  deriving DecidableEq, Repr

/-- Lexicographic comparison of `datetime` values, as Python orders them. -/
def PyDateTime.le (a b : PyDateTime) : Bool :=
  if a.year < b.year then true else if b.year < a.year then false
  else if a.month < b.month then true else if b.month < a.month then false
  else if a.day < b.day then true else if b.day < a.day then false
  else if a.hour < b.hour then true else if b.hour < a.hour then false
  else if a.minute < b.minute then true else if b.minute < a.minute then false
  else a.second ≤ b.second

/-- Python's float modulo (sign follows the divisor); for a positive modulus
`m` the result lies in `[0, m)`. -/
def pyMod (x m : ℝ) : ℝ := x - m * ⌊x / m⌋

/-! ## Value objects (`domain/value_objects/coordinates.py`, `flux_data.py`) -/

structure GeographicCoordinates where
  longitude : ℝ
  latitude : ℝ
  altitude : ℝ

/-- `GeographicCoordinates.__post_init__`: validating construction. -/
def geoMk (lon lat alt : ℝ) : Except PyErr GeographicCoordinates :=
  if -180 ≤ lon ∧ lon ≤ 180 then
    if -90 ≤ lat ∧ lat ≤ 90 then
      if 0 ≤ alt then .ok ⟨lon, lat, alt⟩ else .error .valueError
    else .error .valueError
  else .error .valueError

/-- Invariants enforced by `GeographicCoordinates.__post_init__`. -/
def GeographicCoordinates.Valid (c : GeographicCoordinates) : Prop :=
  -180 ≤ c.longitude ∧ c.longitude ≤ 180 ∧
  -90 ≤ c.latitude ∧ c.latitude ≤ 90 ∧ 0 ≤ c.altitude

/-- Degrees to radians (`math.radians`). -/
def radians (x : ℝ) : ℝ := x * (Real.pi / 180)

/-- Radians to degrees (`math.degrees`). -/
def degrees (x : ℝ) : ℝ := x * (180 / Real.pi)

/-- `GeographicCoordinates.distance_to`: haversine great-circle distance with
Earth radius 6371.0 km. -/
def GeographicCoordinates.distance_to (c other : GeographicCoordinates) : ℝ :=
  let R : ℝ := 6371.0
  let lat1 := radians c.latitude
  let lon1 := radians c.longitude
  let lat2 := radians other.latitude
  let lon2 := radians other.longitude
  let dlat := lat2 - lat1
  let dlon := lon2 - lon1
  let a := Real.sin (dlat / 2) ^ 2 +
    Real.cos lat1 * Real.cos lat2 * Real.sin (dlon / 2) ^ 2
  let c' := 2 * Real.arcsin (Real.sqrt a)
  R * c'

structure GeomagneticCoordinates where
  magnetic_longitude : ℝ
  magnetic_latitude : ℝ
  l_shell : ℝ
  magnetic_local_time : ℝ

/-- `GeomagneticCoordinates.__post_init__`: validating construction. -/
def gmMk (mlon mlat l mlt : ℝ) : Except PyErr GeomagneticCoordinates :=
  if -180 ≤ mlon ∧ mlon ≤ 180 then
    if -90 ≤ mlat ∧ mlat ≤ 90 then
      if 1.0 ≤ l then
        if 0 ≤ mlt ∧ mlt ≤ 24 then .ok ⟨mlon, mlat, l, mlt⟩
        else .error .valueError
      else .error .valueError
    else .error .valueError
  else .error .valueError

structure GeographicRegion where
  longitude_min : ℝ
  longitude_max : ℝ
  latitude_min : ℝ
  latitude_max : ℝ
  altitude_min : ℝ
  altitude_max : ℝ

structure SpatialBounds where
  longitude_span : ℝ
  latitude_span : ℝ
  altitude_span : ℝ
  characteristic_length : ℝ

/-- `SpatialBounds.__post_init__`: all four fields must be strictly positive. -/
def sbMk (lonSpan latSpan altSpan charLen : ℝ) : Except PyErr SpatialBounds :=
  if 0 < lonSpan ∧ 0 < latSpan ∧ 0 < altSpan ∧ 0 < charLen then
    .ok ⟨lonSpan, latSpan, altSpan, charLen⟩
  else .error .valueError

/-- Invariants enforced by `SpatialBounds.__post_init__`. -/
def SpatialBounds.Valid (s : SpatialBounds) : Prop :=
  0 < s.longitude_span ∧ 0 < s.latitude_span ∧
  0 < s.altitude_span ∧ 0 < s.characteristic_length

/-- `FluxUnits` enumeration. -/
inductive FluxUnits where
  | particlesPerCm2PerSecond
  | particlesPerCm2PerSPerSr
  | particlesPerM2PerSecond
  deriving DecidableEq, Repr

/-- `DataQuality` enumeration. -/
inductive DataQuality where
  | high
  | medium
  | low
  | unknown
  deriving DecidableEq, Repr

structure FluxIntensity where
  value : ℝ
  uncertainty : ℝ
  confidence_level : ℝ
  units : FluxUnits

/-- `FluxIntensity.__post_init__`: validating construction. -/
def fiMk (v u conf : ℝ) (units : FluxUnits) : Except PyErr FluxIntensity :=
  if 0 ≤ v ∧ 0 ≤ u ∧ 0 < conf ∧ conf ≤ 1 then .ok ⟨v, u, conf, units⟩
  else .error .valueError

/-- Invariants enforced by `FluxIntensity.__post_init__`. -/
def FluxIntensity.Valid (f : FluxIntensity) : Prop :=
  0 ≤ f.value ∧ 0 ≤ f.uncertainty ∧
  0 < f.confidence_level ∧ f.confidence_level ≤ 1

/-- `FluxIntensity.__add__`: rejects mismatched units, sums the values,
combines uncertainties in quadrature and takes the minimum confidence; the
result goes through the validating constructor again. -/
def fluxAdd (a b : FluxIntensity) : Except PyErr FluxIntensity :=
  if a.units ≠ b.units then .error .valueError
  else
    fiMk (a.value + b.value)
      (Real.sqrt (a.uncertainty ^ 2 + b.uncertainty ^ 2))
      (min a.confidence_level b.confidence_level) a.units

/-- `FluxIntensity.is_significant`. -/
def FluxIntensity.is_significant (f : FluxIntensity) (sigma : ℝ) : Prop :=
  if f.uncertainty = 0 then 0 < f.value else sigma * f.uncertainty < f.value

structure FluxData where
  electron_flux : FluxIntensity
  proton_flux : FluxIntensity
  measurement_timestamp : PyDateTime
  data_quality : DataQuality

/-- `FluxData.total_flux`: unit check then `FluxIntensity` addition. -/
def totalFlux (d : FluxData) : Except PyErr FluxIntensity :=
  if d.electron_flux.units ≠ d.proton_flux.units then .error .valueError
  else fluxAdd d.electron_flux d.proton_flux

/-! ## The `SAAAnomaly` entity (`domain/entities/saa_anomaly.py`)

The uuid identity, detection timestamp, internal domain-event list and the
optional `temporal_stability` / `drift_rate` fields are not represented: no
claim mentions them, and they do not influence any numeric behaviour below
(`temporal_stability` defaults to `None`, so its validation check is inert for
every anomaly built by this code). -/

structure SAAAnomaly where
  center_coordinates : GeographicCoordinates
  intensity_peak : FluxIntensity
  spatial_extent : SpatialBounds
  confidence_level : ℝ

/-- `SAAAnomaly.__post_init__`: confidence must lie in `(0, 1]`. -/
def saaMk (c : GeographicCoordinates) (p : FluxIntensity) (s : SpatialBounds)
    (conf : ℝ) : Except PyErr SAAAnomaly :=
  if 0 < conf ∧ conf ≤ 1 then .ok ⟨c, p, s, conf⟩ else .error .valueError

/-- Field invariants of a constructed anomaly. -/
def SAAAnomaly.Valid (a : SAAAnomaly) : Prop :=
  a.center_coordinates.Valid ∧ a.intensity_peak.Valid ∧
  a.spatial_extent.Valid ∧ 0 < a.confidence_level ∧ a.confidence_level ≤ 1

/-- `SAAAnomaly.overlaps_with` (default `overlap_threshold=0.1`): the centers
are closer than `0.1 ×` the sum of the characteristic lengths. -/
def SAAAnomaly.overlaps_with (a other : SAAAnomaly) : Prop :=
  a.center_coordinates.distance_to other.center_coordinates <
    (a.spatial_extent.characteristic_length +
      other.spatial_extent.characteristic_length) * 0.1

/-- `SAAAnomaly.merge_with`: refuses non-overlapping pairs and zero total
intensity, then builds the merged anomaly (intensity-weighted center,
`FluxIntensity` addition, componentwise-max extents with characteristic
length `max × 1.2`, minimum confidence), revalidating every value object. -/
def SAAAnomaly.merge_with (a other : SAAAnomaly) : Except PyErr SAAAnomaly :=
  if a.overlaps_with other then
    if a.intensity_peak.value + other.intensity_peak.value = 0 then
      .error .valueError
    else
      let w1 := a.intensity_peak.value
      let w2 := other.intensity_peak.value
      let tw := w1 + w2
      let newLon := (w1 * a.center_coordinates.longitude +
        w2 * other.center_coordinates.longitude) / tw
      let newLat := (w1 * a.center_coordinates.latitude +
        w2 * other.center_coordinates.latitude) / tw
      let newAlt := (w1 * a.center_coordinates.altitude +
        w2 * other.center_coordinates.altitude) / tw
      do
        let combined ← fluxAdd a.intensity_peak other.intensity_peak
        let cc ← geoMk newLon newLat newAlt
        let se ← sbMk
          (max a.spatial_extent.longitude_span other.spatial_extent.longitude_span)
          (max a.spatial_extent.latitude_span other.spatial_extent.latitude_span)
          (max a.spatial_extent.altitude_span other.spatial_extent.altitude_span)
          (max a.spatial_extent.characteristic_length
            other.spatial_extent.characteristic_length * 1.2)
        saaMk cc combined se
          (min a.confidence_level other.confidence_level)
  else .error .valueError

/-! ## The IGRF coordinate adapter
(`infrastructure/adapters/igrf_coordinate_adapter.py`)

The adapter's `_model_available` flag (set by `_load_igrf_coefficients`,
which depends on the filesystem) is passed as an explicit `avail : Bool`
parameter.  `geographic_to_geomagnetic` and `calculate_l_shell` /
`calculate_magnetic_local_time` call each other unboundedly (the only exit is
Python's recursion limit, surfaced as an exception that the surrounding
`try/except` blocks turn into default values); a `fuel : Nat` parameter models
the remaining stack depth, with exhaustion mapped to `PyErr.recursionError`
exactly where Python would raise `RecursionError`. -/

def epochLo : PyDateTime := ⟨1900, 1, 1, 0, 0, 0⟩

def epochHi : PyDateTime := ⟨2030, 12, 31, 0, 0, 0⟩

/-- `IGRFCoordinateAdapter.validate_epoch`: membership in
`[datetime(1900,1,1), datetime(2030,12,31)]`. -/
def validate_epoch (e : PyDateTime) : Bool :=
  PyDateTime.le epochLo e && PyDateTime.le e epochHi

/-- `math.atan2` as a piecewise arctangent. -/
def atan2 (y x : ℝ) : ℝ :=
  if 0 < x then Real.arctan (y / x)
  else if x < 0 then
    (if 0 ≤ y then Real.arctan (y / x) + Real.pi
     else Real.arctan (y / x) - Real.pi)
  else if 0 < y then Real.pi / 2
  else if y < 0 then -(Real.pi / 2)
  else 0

/-- Leap-year rule used by `datetime.timetuple`. -/
def isLeap (y : Int) : Bool := (y % 4 == 0 && y % 100 != 0) || y % 400 == 0

def monthLengths (leap : Bool) : List Nat :=
  [31, if leap then 29 else 28, 31, 30, 31, 30, 31, 31, 30, 31, 30, 31]

/-- `epoch.timetuple().tm_yday`: one-based day of the year. -/
def dayOfYear (e : PyDateTime) : Nat :=
  ((monthLengths (isLeap e.year)).take (e.month - 1)).sum + e.day

/-- `IGRFCoordinateAdapter.get_magnetic_pole_position`: base position
`(86.5°N, 164°W)` at 2020.0, drifted by `-0.1°/yr` latitude and `10°/yr`
longitude; the result goes through the validating
`GeographicCoordinates` constructor. -/
def get_magnetic_pole_position (e : PyDateTime) : Except PyErr GeographicCoordinates :=
  let yearsSinceBase : ℝ := (e.year : ℝ) - 2020.0
  let poleLat := 86.5 + (-0.1) * yearsSinceBase
  let poleLon := pyMod ((-164.0) + 10.0 * yearsSinceBase + 180) 360 - 180
  geoMk poleLon poleLat 0.0

/-- `_interpolate_coefficients`: linear secular variation from the 2020
base epoch, returning `(g10, g11, h11)`. -/
def interpolate_coefficients (year : ℝ) : ℝ × ℝ × ℝ :=
  let dt := year - 2020.0
  (-29442.0 + 7.7 * dt, -1450.7 + 7.4 * dt, 4652.9 + (-25.1) * dt)

/-- The tail of `calculate_l_shell` after the inner
`geographic_to_geomagnetic` call: dipole `L` from the magnetic latitude,
sentinel `100` near the poles, clamped to `≥ 1`; any exception from the
inner call yields the default `1.0`. -/
def lShellFrom (c : GeographicCoordinates)
    (mag : Except PyErr GeomagneticCoordinates) : ℝ :=
  match mag with
  | .error _ => 1.0
  | .ok m =>
    let cosMagLat := Real.cos (radians m.magnetic_latitude)
    if |cosMagLat| < 0.01 then 100.0
    else max 1.0 ((c.altitude + 6371.2) / 6371.2 / cosMagLat ^ 2)

/-- The tail of `calculate_magnetic_local_time` after the inner calls:
magnetic longitude against a day-of-year solar longitude, 15°/hour, wrapped
into `[0, 24)`; any exception yields the default `12.0`. -/
def mltFrom (e : PyDateTime)
    (mag : Except PyErr GeomagneticCoordinates) : ℝ :=
  match get_magnetic_pole_position e with
  | .error _ => 12.0
  | .ok pole =>
    let solarLon := ((dayOfYear e : ℝ) / 365.25) * 360.0
    match mag with
    | .error _ => 12.0
    | .ok m =>
      pyMod ((m.magnetic_longitude - solarLon + pole.longitude) / 15.0) 24.0

/-- `IGRFCoordinateAdapter.geographic_to_geomagnetic`: model-availability
check, epoch validation, then spherical trigonometry against the epoch's
pole position; every exception in the body becomes `TransformationError`. -/
def geographic_to_geomagnetic (avail : Bool) :
    Nat → GeographicCoordinates → PyDateTime →
      Except PyErr GeomagneticCoordinates
  | 0, _, _ => .error .recursionError
  | fuel + 1, c, e =>
    if avail then
      if validate_epoch e then
        match get_magnetic_pole_position e with
        | .error _ => .error .transformationError
        | .ok pole =>
          let lonRad := radians c.longitude
          let latRad := radians c.latitude
          let poleLonRad := radians pole.longitude
          let poleLatRad := radians pole.latitude
          let cosColat := max (-1) (min 1
            (Real.sin poleLatRad * Real.sin latRad +
              Real.cos poleLatRad * Real.cos latRad *
                Real.cos (lonRad - poleLonRad)))
          let colat := Real.arccos cosColat
          let magLat := 90 - degrees colat
          let magLon0 :=
            if |magLat| < 89.9 then
              degrees (atan2
                (Real.cos poleLatRad * Real.sin (lonRad - poleLonRad) /
                  Real.sin colat)
                ((Real.cos latRad - cosColat * Real.sin poleLatRad) /
                  (Real.sin colat * Real.cos poleLatRad)))
            else 0
          let magLon := pyMod (magLon0 + 180) 360 - 180
          let l := lShellFrom c (geographic_to_geomagnetic avail fuel c e)
          let mlt := mltFrom e (geographic_to_geomagnetic avail fuel c e)
          match gmMk magLon magLat l mlt with
          | .ok g => .ok g
          | .error _ => .error .transformationError
      else .error .invalidEpochError
    else .error .transformationError

/-- `IGRFCoordinateAdapter.calculate_l_shell`. -/
def calculate_l_shell (avail : Bool) (fuel : Nat) (c : GeographicCoordinates)
    (e : PyDateTime) : ℝ :=
  lShellFrom c (geographic_to_geomagnetic avail fuel c e)

/-- `IGRFCoordinateAdapter.calculate_magnetic_local_time`. -/
def calculate_magnetic_local_time (avail : Bool) (fuel : Nat)
    (c : GeographicCoordinates) (e : PyDateTime) : ℝ :=
  mltFrom e (geographic_to_geomagnetic avail fuel c e)

/-- `IGRFCoordinateAdapter.geomagnetic_to_geographic`: availability check,
epoch validation, inverse spherical trigonometry, altitude from the L-shell;
body exceptions become `TransformationError`. -/
def geomagnetic_to_geographic (avail : Bool) (c : GeomagneticCoordinates)
    (e : PyDateTime) : Except PyErr GeographicCoordinates :=
  if avail then
    if validate_epoch e then
      match get_magnetic_pole_position e with
      | .error _ => .error .transformationError
      | .ok pole =>
        let magLonRad := radians c.magnetic_longitude
        let poleLatRad := radians pole.latitude
        let magColat := radians (90.0 - c.magnetic_latitude)
        let cosGeoColat := max (-1) (min 1
          (Real.sin poleLatRad * Real.cos magColat +
            Real.cos poleLatRad * Real.sin magColat * Real.cos magLonRad))
        let geoColat := Real.arccos cosGeoColat
        let geoLat := 90.0 - degrees geoColat
        let geoLon0 :=
          if |geoLat| < 89.9 then
            degrees (atan2
              (Real.sin magColat * Real.sin magLonRad / Real.sin geoColat)
              ((Real.cos magColat - cosGeoColat * Real.sin poleLatRad) /
                (Real.sin geoColat * Real.cos poleLatRad))) + pole.longitude
          else pole.longitude
        let geoLon := pyMod (geoLon0 + 180) 360 - 180
        let altitude := max 100.0 ((c.l_shell - 1.0) * 6371.2)
        match geoMk geoLon geoLat altitude with
        | .ok g => .ok g
        | .error _ => .error .transformationError
    else .error .invalidEpochError
  else .error .transformationError

/-- Result dictionary of `calculate_magnetic_field`. -/
structure MagneticField where
  B_x : ℝ
  B_y : ℝ
  B_z : ℝ
  B_total : ℝ
  inclination : ℝ
  declination : ℝ

/-- `IGRFCoordinateAdapter.calculate_magnetic_field`: availability check,
then the leading-dipole field from the interpolated `g10` coefficient.
Note: unlike the two coordinate transforms, this entry point performs no
epoch validation. -/
def calculate_magnetic_field (avail : Bool) (c : GeographicCoordinates)
    (e : PyDateTime) : Except PyErr MagneticField :=
  if avail then
    let coeffs := interpolate_coefficients (e.year : ℝ)
    let g10 := coeffs.1
    let r := c.altitude + 6371.2
    let theta := radians (90.0 - c.latitude)
    let a : ℝ := 6371.2
    let rRatio := (a / r) ^ 2
    let Br := -2 * g10 * rRatio * (a / r) * Real.cos theta
    let Btheta := -g10 * rRatio * Real.sin theta
    let Bphi : ℝ := 0.0
    let Bx := -Btheta
    let By := Bphi
    let Bz := -Br
    .ok ⟨Bx, By, Bz, Real.sqrt (Bx ^ 2 + By ^ 2 + Bz ^ 2),
      degrees (atan2 Bz (Real.sqrt (Bx ^ 2 + By ^ 2))),
      degrees (atan2 By Bx)⟩
  else .error .transformationError

/-! ## Manifold flux interpolation
(`application/services/manifold_generation_service.py`)

Only `_interpolate_flux_field` and its helpers bear a claim.  The scipy
`RBFInterpolator` used on the ≥ 2-measurement path is an external library and
is passed in as an abstract function `rbf`; its failure falls back to the
embedded nearest-neighbour interpolation, as in the source. -/

/-- `scipy.spatial.distance.cdist` entries: Euclidean distance in the
(longitude, latitude, altitude) space. -/
def euclid (p q : ℝ × ℝ × ℝ) : ℝ :=
  Real.sqrt ((p.1 - q.1) ^ 2 + (p.2.1 - q.2.1) ^ 2 + (p.2.2 - q.2.2) ^ 2)

/-- The placeholder measurement coordinate the service fabricates for the
`i`-th flux sample (`-45 + i % 10`, `-20 + i // 10`, `500`). -/
def placeholderCoord (i : Nat) : ℝ × ℝ × ℝ :=
  ((-45.0) + ((i % 10 : ℕ) : ℝ) * 1.0, (-20.0) + ((i / 10 : ℕ) : ℝ) * 1.0, 500.0)

/-- The `flux_values` list: `data.total_flux().value` per sample, with the
first unit-mismatch exception propagating. -/
def fluxValuesOf : List FluxData → Except PyErr (List ℝ)
  | [] => .ok []
  | d :: rest =>
    match totalFlux d with
    | .error err => .error err
    | .ok t =>
      match fluxValuesOf rest with
      | .error err => .error err
      | .ok vs => .ok (t.value :: vs)

/-- `np.max` over a 1-D array; empty input raises. -/
def npMax : List ℝ → Except PyErr ℝ
  | [] => .error .valueError
  | x :: xs => .ok (xs.foldl max x)

/-- Index of the first minimum (`np.argmin`). -/
def argminAux : List ℝ → Nat → ℝ → Nat → Nat
  | [], _, _, best => best
  | x :: xs, i, bv, best =>
    if x < bv then argminAux xs (i + 1) x i else argminAux xs (i + 1) bv best

def argminIdx : List ℝ → Except PyErr Nat
  | [] => .error .valueError
  | x :: xs => .ok (argminAux xs 1 x 0)

/-- `_nearest_neighbor_interpolation`: per grid point, the flux value of the
closest measurement coordinate. -/
def nearest_neighbor_interpolation (mcoords : List (ℝ × ℝ × ℝ))
    (vals : List ℝ) (grid : List (ℝ × ℝ × ℝ)) : Except PyErr (List ℝ) :=
  grid.mapM (fun g => do
    let idx ← argminIdx (mcoords.map (euclid g))
    match vals.get? idx with
    | some v => .ok v
    | none => .error .indexError)

/-- `ManifoldGenerationService._interpolate_flux_field`: zeros for no data,
exponential falloff from the single placeholder coordinate for one sample,
`rbf` (with nearest-neighbour fallback) for two or more. -/
def interpolate_flux_field
    (rbf : List (ℝ × ℝ × ℝ) → List ℝ → List (ℝ × ℝ × ℝ) →
      Except PyErr (List ℝ))
    (flux_data : List FluxData) (grid : List (ℝ × ℝ × ℝ)) :
    Except PyErr (List ℝ) :=
  if flux_data.isEmpty then .ok (grid.map (fun _ => 0))
  else
    match fluxValuesOf flux_data with
    | .error err => .error err
    | .ok vals =>
      let mcoords := (List.range flux_data.length).map placeholderCoord
      if flux_data.length = 1 then
        let v := vals.headI
        let distances := grid.map (fun g => euclid g (placeholderCoord 0))
        match npMax distances with
        | .error err => .error err
        | .ok maxDistance =>
          if 0 < maxDistance then
            .ok (distances.map (fun d => v * Real.exp (-d / (maxDistance * 0.3))))
          else .ok (grid.map (fun _ => v))
      else
        match rbf mcoords vals grid with
        | .ok r => .ok r
        | .error _ => nearest_neighbor_interpolation mcoords vals grid

/-- Modelled from the spec's closed form for the single-sample case: each grid
point gets `v·exp(−d/(0.3·d_max))`, where `d` is its Euclidean distance to
the measurement coordinate and `d_max` the maximum such distance over the
grid; every grid point gets `v` when `d_max = 0`. -/
def specSingleSampleFalloff (v : ℝ) (m : ℝ × ℝ × ℝ)
    (grid : List (ℝ × ℝ × ℝ)) : List ℝ :=
  let dmax : ℝ :=
    match grid.map (fun g => euclid g m) with
    | [] => 0
    | x :: xs => xs.foldl max x
  grid.map (fun g =>
    if dmax = 0 then v else v * Real.exp (-(euclid g m) / (0.3 * dmax)))

/-! ## Analysis orchestration
(`application/services/saa_analysis_service.py`)

`SAAAnalysisService` receives its collaborators by constructor injection; the
embedding bundles them as an `AnalysisDeps` record (the flux-data port, the
coordinate-transform smoke test, the detector, the manifold service and the
event publisher), with the manifold payload type abstract.  String-typed
analysis ids are modelled as an opaque `Nat`; the completion event keeps the
fields the claims can observe. -/

/-- `AnalysisCompleted` domain event (timestamps and the serialized region
string are reduced to the region itself). -/
structure AnalysisCompleted where
  analysis_id : Nat
  region_analyzed : GeographicRegion
  anomalies_found : Nat

/-- Injected collaborators of `SAAAnalysisService`. -/
structure AnalysisDeps (M : Type) where
  get_flux_in_region : GeographicRegion → Option ℝ → Except PyErr (List FluxData)
  transform_test : GeographicCoordinates → Except PyErr GeomagneticCoordinates
  detect : List FluxData → GeographicRegion → Except PyErr (List SAAAnomaly)
  generate_manifold : List FluxData → GeographicRegion → List SAAAnomaly →
    Except PyErr M
  publish : AnalysisCompleted → Except PyErr Unit

/-- `SAAAnalysisResult` (processing time and free-form metadata beyond the
data-point count are not modelled). -/
structure SAAAnalysisResult (M : Type) where
  analysis_id : Nat
  region : GeographicRegion
  anomalies : List SAAAnomaly
  manifold_data : Option M
  data_points_processed : Nat

/-- `SAAAnalysisService._is_valid_flux_data`: non-negative flux values and
uncertainties, data quality in {high, medium}. -/
def is_valid_flux_data (d : FluxData) : Bool :=
  decide (0 ≤ d.electron_flux.value ∧ 0 ≤ d.proton_flux.value ∧
    0 ≤ d.electron_flux.uncertainty ∧ 0 ≤ d.proton_flux.uncertainty ∧
    (d.data_quality = .high ∨ d.data_quality = .medium))

/-- `SAAAnalysisService.analyze_region`: retrieval, quality filtering,
empty check, (non-fatal) transform smoke test, detection, optional manifold
generation, result assembly, completion-event publication.  Every exception
escaping the body — the publish call included, since it sits inside the
`try` block before `return result` — is re-raised as `AnalysisError`. -/
def analyze_region {M : Type} (deps : AnalysisDeps M) (region : GeographicRegion)
    (analysis_id : Nat) (resolution : Option ℝ) (include_manifold : Bool) :
    Except PyErr (SAAAnalysisResult M) :=
  match deps.get_flux_in_region region resolution with
  | .error _ => .error .analysisError
  | .ok raw =>
    let flux_data := raw.filter is_valid_flux_data
    if flux_data.isEmpty then .error .analysisError
    else
      -- `_enhance_with_geomagnetic_coordinates`: the smoke-test result is
      -- discarded and its failure only logged.
      let _smoke := deps.transform_test ⟨0, 0, 500⟩
      match deps.detect flux_data region with
      | .error _ => .error .analysisError
      | .ok anomalies =>
        match (if include_manifold then
            (deps.generate_manifold flux_data region anomalies).map some
          else .ok none) with
        | .error _ => .error .analysisError
        | .ok manifold_data =>
          match deps.publish ⟨analysis_id, region, anomalies.length⟩ with
          | .error _ => .error .analysisError
          | .ok _ => .ok ⟨analysis_id, region, anomalies, manifold_data,
              flux_data.length⟩

/-! ## Anomaly detection
(`application/services/anomaly_detection_service.py`)

Default `DetectionParameters`: `intensity_threshold_sigma = 3.0`,
`minimum_extent_km = 50.0`, `confidence_threshold = 0.9`,
`merge_distance_km = 100.0`. -/

/-- `np.mean` (population). -/
def npMean (l : List ℝ) : ℝ := l.sum / l.length

/-- `np.std` (population standard deviation). -/
def npStd (l : List ℝ) : ℝ :=
  Real.sqrt ((l.map (fun x => (x - npMean l) ^ 2)).sum / l.length)

/-- The candidate loop of `_detect_statistical_anomalies`: every enumerated
total flux strictly above the threshold becomes
`(index, flux/threshold, placeholder coordinates)`; a zero threshold raises
`ZeroDivisionError`, an out-of-range placeholder latitude raises
`ValueError`. -/
def statLoop (threshold : ℝ) :
    List (Nat × ℝ) → Except PyErr (List (Nat × ℝ × GeographicCoordinates))
  | [] => .ok []
  | (i, flux) :: rest =>
    if threshold < flux then
      if threshold = 0 then .error .zeroDivisionError
      else
        match geoMk ((-45.0) + ((i % 10 : ℕ) : ℝ)) ((-20.0) + ((i / 10 : ℕ) : ℝ))
            500.0 with
        | .error err => .error err
        | .ok coords =>
          match statLoop threshold rest with
          | .error err => .error err
          | .ok l => .ok ((i, flux / threshold, coords) :: l)
    else statLoop threshold rest

/-- `_detect_statistical_anomalies`: total flux is the pointwise sum of the
electron and proton flux values; threshold `mean + 3σ`. -/
def detect_statistical_anomalies (flux_data : List FluxData) :
    Except PyErr (List (Nat × ℝ × GeographicCoordinates)) :=
  let total_fluxes := flux_data.map
    (fun d => d.electron_flux.value + d.proton_flux.value)
  let threshold := npMean total_fluxes + 3.0 * npStd total_fluxes
  statLoop threshold total_fluxes.enum

/-- The greedy seed-linkage grouping of `_cluster_spatial_anomalies`: the
first unprocessed candidate seeds a cluster absorbing every later candidate
within `merge_distance_km` of the seed. -/
def clusterLoop : List (Nat × ℝ × GeographicCoordinates) →
    List (List (Nat × ℝ × GeographicCoordinates))
  | [] => []
  | seed :: rest =>
    let near := rest.filter
      (fun p => decide (seed.2.2.distance_to p.2.2 ≤ 100.0))
    let far := rest.filter
      (fun p => ! decide (seed.2.2.distance_to p.2.2 ≤ 100.0))
    (seed :: near) :: clusterLoop far
termination_by l => l.length
decreasing_by
  simp only [List.length_cons]
  exact Nat.lt_succ_of_le (List.length_filter_le _ _)

/-- `_create_anomaly_from_cluster`: score-weighted center, peak intensity
from the reference sample scaled by the maximum score, bounding-box spans
with `characteristic_length = √(lonSpan² + latSpan²) · 111`, confidence
`min(0.95, 0.7 + 0.05·size)`; a zero total weight yields `None` (the cluster
is skipped), every constructed value object revalidates. -/
def create_anomaly_from_cluster
    (cluster : List (Nat × ℝ × GeographicCoordinates))
    (flux_data : List FluxData) : Except PyErr (Option SAAAnomaly) :=
  match cluster with
  | [] => .ok none
  | first :: restC =>
    let pts := first :: restC
    let total_weight := (pts.map (fun p => p.2.1)).sum
    if total_weight = 0 then .ok none
    else
      let wlon := (pts.map (fun p => p.2.1 * p.2.2.longitude)).sum / total_weight
      let wlat := (pts.map (fun p => p.2.1 * p.2.2.latitude)).sum / total_weight
      let walt := (pts.map (fun p => p.2.1 * p.2.2.altitude)).sum / total_weight
      match geoMk wlon wlat walt with
      | .error err => .error err
      | .ok center =>
        let max_score := (restC.map (fun p => p.2.1)).foldl max first.2.1
        match flux_data.get? first.1 with
        | none => .error .indexError
        | some peak_flux_data =>
          match totalFlux peak_flux_data with
          | .error err => .error err
          | .ok tf =>
            match fiMk (tf.value * max_score) (tf.uncertainty * max_score)
                0.95 .particlesPerCm2PerSecond with
            | .error err => .error err
            | .ok peak =>
              let lon_span := (restC.map (fun p => p.2.2.longitude)).foldl max
                  first.2.2.longitude -
                (restC.map (fun p => p.2.2.longitude)).foldl min
                  first.2.2.longitude
              let lat_span := (restC.map (fun p => p.2.2.latitude)).foldl max
                  first.2.2.latitude -
                (restC.map (fun p => p.2.2.latitude)).foldl min
                  first.2.2.latitude
              let alt_span := (restC.map (fun p => p.2.2.altitude)).foldl max
                  first.2.2.altitude -
                (restC.map (fun p => p.2.2.altitude)).foldl min
                  first.2.2.altitude
              let char_length := Real.sqrt (lon_span ^ 2 + lat_span ^ 2) * 111.0
              match sbMk lon_span lat_span alt_span char_length with
              | .error err => .error err
              | .ok extent =>
                let confidence := min 0.95 (0.7 + 0.05 * (pts.length : ℝ))
                match saaMk center peak extent confidence with
                | .error err => .error err
                | .ok a => .ok (some a)

/-- Cluster collection inside `_cluster_spatial_anomalies`: `None` results
are skipped, the first exception propagates. -/
def collectClusters (flux_data : List FluxData) :
    List (List (Nat × ℝ × GeographicCoordinates)) →
      Except PyErr (List SAAAnomaly)
  | [] => .ok []
  | cl :: rest =>
    match create_anomaly_from_cluster cl flux_data with
    | .error err => .error err
    | .ok none => collectClusters flux_data rest
    | .ok (some a) =>
      match collectClusters flux_data rest with
      | .error err => .error err
      | .ok l => .ok (a :: l)

/-- `_cluster_spatial_anomalies`. -/
def cluster_spatial_anomalies
    (stat : List (Nat × ℝ × GeographicCoordinates))
    (flux_data : List FluxData) : Except PyErr (List SAAAnomaly) :=
  collectClusters flux_data (clusterLoop stat)

/-- `SAAAnomaly.is_significant_anomaly` (default `threshold_factor = 2.0`). -/
def SAAAnomaly.is_significant_anomaly (a : SAAAnomaly) : Prop :=
  a.intensity_peak.is_significant 2.0 ∧ 0.9 ≤ a.confidence_level ∧
    10.0 < a.spatial_extent.characteristic_length

/-- `_validate_anomalies`: keep anomalies with characteristic length at least
`minimum_extent_km`, confidence at least `confidence_threshold`, and passing
`is_significant_anomaly`. -/
def validate_anomalies (anomalies : List SAAAnomaly) : List SAAAnomaly :=
  anomalies.filter (fun a => decide
    (¬ a.spatial_extent.characteristic_length < 50.0 ∧
     ¬ a.confidence_level < 0.9 ∧ a.is_significant_anomaly))

/-- Inner scan of `_merge_overlapping_anomalies`: the running anomaly absorbs
every later unprocessed anomaly it overlaps (the overlap test uses the
already-merged running anomaly); non-overlapping anomalies are kept, in
order, for later passes. -/
def absorbOverlaps (a : SAAAnomaly) :
    List SAAAnomaly → Except PyErr (SAAAnomaly × List SAAAnomaly)
  | [] => .ok (a, [])
  | b :: rest =>
    if a.overlaps_with b then
      match a.merge_with b with
      | .error err => .error err
      | .ok m => absorbOverlaps m rest
    else
      match absorbOverlaps a rest with
      | .error err => .error err
      | .ok (c, rem) => .ok (c, b :: rem)


/-- Outer loop of `_merge_overlapping_anomalies`. -/
def mergePass : List SAAAnomaly → Except PyErr (List SAAAnomaly)
  | [] => .ok []
  | a :: rest =>
    match habs : absorbOverlaps a rest with
    | .error err => .error err
    | .ok (c, rem) =>
      match mergePass rem with
      | .error err => .error err
      | .ok tail => .ok (c :: tail)
termination_by l => l.length
decreasing_by
  have key : ∀ (l : List SAAAnomaly) (x y : SAAAnomaly)
      (rem2 : List SAAAnomaly),
      absorbOverlaps x l = .ok (y, rem2) → rem2.length ≤ l.length := by
    intro l
    induction l with
    | nil =>
      intro x y rem2 h
      unfold absorbOverlaps at h
      cases h
      exact le_refl 0
    | cons b rest2 ih =>
      intro x y rem2 h
      unfold absorbOverlaps at h
      split at h
      · split at h
        · exact absurd h (by simp)
        · exact le_trans (ih _ _ _ h) (Nat.le_succ _)
      · split at h
        · exact absurd h (by simp)
        · rename_i c2 rem3 heq
          cases h
          simpa using Nat.succ_le_succ (ih _ _ _ heq)
  simp only [List.length_cons]
  exact Nat.lt_succ_of_le (key _ _ _ _ habs)
def merge_overlapping_anomalies (anomalies : List SAAAnomaly) :
    Except PyErr (List SAAAnomaly) :=
  if anomalies.length ≤ 1 then .ok anomalies else mergePass anomalies

/-- `AnomalyDetectionService.detect_anomalies` (default parameters): empty
input short-circuits to `[]`; any exception from the four-stage pipeline is
re-raised as `AnomalyDetectionError`. -/
def detect_anomalies (flux_data : List FluxData) (region : GeographicRegion) :
    Except PyErr (List SAAAnomaly) :=
  if flux_data.isEmpty then .ok []
  else
    match (do
        let stat ← detect_statistical_anomalies flux_data
        let clustered ← cluster_spatial_anomalies stat flux_data
        let validated := validate_anomalies clustered
        merge_overlapping_anomalies validated :
        Except PyErr (List SAAAnomaly)) with
    | .ok r => .ok r
    | .error _ => .error .anomalyDetectionError


/-- The two bounds claimed for every anomaly detection returns. -/
def anomalyBounds (a : SAAAnomaly) : Prop :=
  0.9 ≤ a.confidence_level ∧ 50.0 ≤ a.spatial_extent.characteristic_length

/-- The bounds, read off a full detection result: every anomaly of a
successful run satisfies them (a raising run returns no anomalies at all). -/
def allDetectedBounded (r : Except PyErr (List SAAAnomaly)) : Prop :=
  match r with
  | .ok l => ∀ a ∈ l, anomalyBounds a
  | .error _ => True
/-! ## Claim C9 — haversine distance: zero on the diagonal, symmetric. -/

lemma distance_to_self (c : GeographicCoordinates) : c.distance_to c = 0 := by
  unfold GeographicCoordinates.distance_to
  simp [Real.sqrt_zero, Real.arcsin_zero]

lemma distance_to_comm (c d : GeographicCoordinates) :
    c.distance_to d = d.distance_to c := by
  unfold GeographicCoordinates.distance_to
  have h1 : radians d.latitude - radians c.latitude
      = -(radians c.latitude - radians d.latitude) := by ring
  have h2 : radians d.longitude - radians c.longitude
      = -(radians c.longitude - radians d.longitude) := by ring
  simp only [h1, h2, neg_div, Real.sin_neg, neg_sq]
  ring_nf

/-- C9: for all valid geographic coordinates `c`, `d`, the great-circle
haversine distance (Earth radius 6371.0 km) satisfies
`c.distance_to c = 0` and `c.distance_to d = d.distance_to c`. -/
theorem C9_distance_reflexive_symmetric (c d : GeographicCoordinates)
    (hc : c.Valid) (hd : d.Valid) :
    c.distance_to c = 0 ∧ c.distance_to d = d.distance_to c :=
  ⟨distance_to_self c, distance_to_comm c d⟩

/-- C9 witness: concrete valid coordinates. -/
theorem C9_distance_reflexive_symmetric_witness :
    (GeographicCoordinates.mk 10 20 300).distance_to ⟨10, 20, 300⟩ = 0 ∧
    (GeographicCoordinates.mk 10 20 300).distance_to ⟨-30, 40, 0⟩ =
      (GeographicCoordinates.mk (-30) 40 0).distance_to ⟨10, 20, 300⟩ :=
  C9_distance_reflexive_symmetric ⟨10, 20, 300⟩ ⟨-30, 40, 0⟩
    (by norm_num [GeographicCoordinates.Valid])
    (by norm_num [GeographicCoordinates.Valid])

/-! ## Claim C7 — FluxIntensity addition. -/

/-- Helper: on valid operands with matching units, `__add__` succeeds and
returns exactly the quadrature-combined measurement. -/
lemma fluxAdd_valid_ok (a b : FluxIntensity) (ha : a.Valid) (hb : b.Valid)
    (hu : a.units = b.units) :
    fluxAdd a b = .ok ⟨a.value + b.value,
      Real.sqrt (a.uncertainty ^ 2 + b.uncertainty ^ 2),
      min a.confidence_level b.confidence_level, a.units⟩ := by
  obtain ⟨hv, hn, hc0, hc1⟩ := ha
  obtain ⟨hv', hn', hc0', hc1'⟩ := hb
  unfold fluxAdd fiMk
  rw [if_neg (by simpa using hu), if_pos]
  exact ⟨by linarith, Real.sqrt_nonneg _, lt_min hc0 hc0', min_le_of_left_le hc1⟩

/-- Helper: mismatched units make `__add__` raise `ValueError`. -/
lemma fluxAdd_units_ne (a b : FluxIntensity) (hu : a.units ≠ b.units) :
    fluxAdd a b = .error .valueError := by
  unfold fluxAdd
  rw [if_pos hu]

/-- C7: for valid flux intensities with equal units, addition produces the
sum of the values (hence is commutative in the value), the quadrature-combined
uncertainty and the minimum confidence; with different units it raises
`ValueError`. -/
theorem C7_flux_addition (a b : FluxIntensity) (ha : a.Valid) (hb : b.Valid) :
    (a.units = b.units →
      fluxAdd a b = .ok ⟨a.value + b.value,
        Real.sqrt (a.uncertainty ^ 2 + b.uncertainty ^ 2),
        min a.confidence_level b.confidence_level, a.units⟩ ∧
      (fluxAdd a b).map FluxIntensity.value =
        (fluxAdd b a).map FluxIntensity.value) ∧
    (a.units ≠ b.units → fluxAdd a b = .error .valueError) := by
  refine ⟨fun hu => ⟨fluxAdd_valid_ok a b ha hb hu, ?_⟩,
    fun hu => fluxAdd_units_ne a b hu⟩
  rw [fluxAdd_valid_ok a b ha hb hu, fluxAdd_valid_ok b a hb ha hu.symm]
  simp [Except.map]
  ring

/-- C7 witness: concrete valid operands with matching units. -/
theorem C7_flux_addition_witness :
    ((FluxIntensity.mk 3 3 0.9 .particlesPerCm2PerSecond).units =
        (FluxIntensity.mk 4 4 0.8 .particlesPerCm2PerSecond).units →
      fluxAdd ⟨3, 3, 0.9, .particlesPerCm2PerSecond⟩
          ⟨4, 4, 0.8, .particlesPerCm2PerSecond⟩ =
        .ok ⟨(3 : ℝ) + 4, Real.sqrt ((3 : ℝ) ^ 2 + (4 : ℝ) ^ 2),
          min (0.9 : ℝ) 0.8, .particlesPerCm2PerSecond⟩ ∧
      (fluxAdd ⟨3, 3, 0.9, .particlesPerCm2PerSecond⟩
          ⟨4, 4, 0.8, .particlesPerCm2PerSecond⟩).map FluxIntensity.value =
      (fluxAdd ⟨4, 4, 0.8, .particlesPerCm2PerSecond⟩
          ⟨3, 3, 0.9, .particlesPerCm2PerSecond⟩).map FluxIntensity.value) ∧
    ((FluxIntensity.mk 3 3 0.9 .particlesPerCm2PerSecond).units ≠
        (FluxIntensity.mk 4 4 0.8 .particlesPerCm2PerSecond).units →
      fluxAdd ⟨3, 3, 0.9, .particlesPerCm2PerSecond⟩
          ⟨4, 4, 0.8, .particlesPerCm2PerSecond⟩ = .error .valueError) :=
  C7_flux_addition ⟨3, 3, 0.9, .particlesPerCm2PerSecond⟩
    ⟨4, 4, 0.8, .particlesPerCm2PerSecond⟩
    (by norm_num [FluxIntensity.Valid]) (by norm_num [FluxIntensity.Valid])

/-- Helper: an intensity-weighted average of two values in `[lo, hi]` stays in
`[lo, hi]` when the weights are non-negative with positive sum. -/
lemma weighted_avg_mem (w1 w2 x1 x2 lo hi : ℝ) (h1 : 0 ≤ w1) (h2 : 0 ≤ w2)
    (hw : 0 < w1 + w2) (ha : lo ≤ x1) (hb : x1 ≤ hi) (hc : lo ≤ x2)
    (hd : x2 ≤ hi) :
    lo ≤ (w1 * x1 + w2 * x2) / (w1 + w2) ∧
      (w1 * x1 + w2 * x2) / (w1 + w2) ≤ hi := by
  constructor
  · rw [le_div_iff hw]; nlinarith
  · rw [div_le_iff hw]; nlinarith

/-- Helper: the exact success shape of `merge_with` on valid overlapping
anomalies with matching units and non-zero total intensity. -/
lemma merge_with_ok (a b : SAAAnomaly) (hva : a.Valid) (hvb : b.Valid)
    (hu : a.intensity_peak.units = b.intensity_peak.units)
    (hov : a.overlaps_with b)
    (hnz : ¬ (a.intensity_peak.value = 0 ∧ b.intensity_peak.value = 0)) :
    a.merge_with b = .ok
      ⟨⟨(a.intensity_peak.value * a.center_coordinates.longitude +
          b.intensity_peak.value * b.center_coordinates.longitude) /
          (a.intensity_peak.value + b.intensity_peak.value),
        (a.intensity_peak.value * a.center_coordinates.latitude +
          b.intensity_peak.value * b.center_coordinates.latitude) /
          (a.intensity_peak.value + b.intensity_peak.value),
        (a.intensity_peak.value * a.center_coordinates.altitude +
          b.intensity_peak.value * b.center_coordinates.altitude) /
          (a.intensity_peak.value + b.intensity_peak.value)⟩,
       ⟨a.intensity_peak.value + b.intensity_peak.value,
        Real.sqrt (a.intensity_peak.uncertainty ^ 2 +
          b.intensity_peak.uncertainty ^ 2),
        min a.intensity_peak.confidence_level b.intensity_peak.confidence_level,
        a.intensity_peak.units⟩,
       ⟨max a.spatial_extent.longitude_span b.spatial_extent.longitude_span,
        max a.spatial_extent.latitude_span b.spatial_extent.latitude_span,
        max a.spatial_extent.altitude_span b.spatial_extent.altitude_span,
        max a.spatial_extent.characteristic_length
          b.spatial_extent.characteristic_length * 1.2⟩,
       min a.confidence_level b.confidence_level⟩ := by
  obtain ⟨⟨hlo1, hhi1, hlo2, hhi2, halt1⟩, hfa, hsa, hca0, hca1⟩ := hva
  obtain ⟨⟨hlo1', hhi1', hlo2', hhi2', halt1'⟩, hfb, hsb, hcb0, hcb1⟩ := hvb
  have hw1 : 0 ≤ a.intensity_peak.value := hfa.1
  have hw2 : 0 ≤ b.intensity_peak.value := hfb.1
  have htw : 0 < a.intensity_peak.value + b.intensity_peak.value := by
    rcases lt_or_eq_of_le hw1 with h | h
    · linarith
    · rcases lt_or_eq_of_le hw2 with h' | h'
      · linarith
      · exact absurd ⟨h.symm, h'.symm⟩ hnz
  unfold SAAAnomaly.merge_with
  rw [if_pos hov, if_neg (by linarith)]
  rw [fluxAdd_valid_ok a.intensity_peak b.intensity_peak hfa hfb hu]
  show Except.bind _ _ = _
  rw [Except.bind]
  have hlon := weighted_avg_mem a.intensity_peak.value b.intensity_peak.value
    a.center_coordinates.longitude b.center_coordinates.longitude (-180) 180
    hw1 hw2 htw hlo1 hhi1 hlo1' hhi1'
  have hlat := weighted_avg_mem a.intensity_peak.value b.intensity_peak.value
    a.center_coordinates.latitude b.center_coordinates.latitude (-90) 90
    hw1 hw2 htw hlo2 hhi2 hlo2' hhi2'
  have halt : 0 ≤ (a.intensity_peak.value * a.center_coordinates.altitude +
      b.intensity_peak.value * b.center_coordinates.altitude) /
      (a.intensity_peak.value + b.intensity_peak.value) :=
    div_nonneg (by nlinarith) htw.le
  rw [geoMk, if_pos ⟨hlon.1, hlon.2⟩, if_pos ⟨hlat.1, hlat.2⟩, if_pos halt]
  show Except.bind _ _ = _
  rw [Except.bind]
  obtain ⟨hs1, hs2, hs3, hs4⟩ := hsa
  obtain ⟨hs1', hs2', hs3', hs4'⟩ := hsb
  have hmax4 : (0 : ℝ) < max a.spatial_extent.characteristic_length
      b.spatial_extent.characteristic_length * 1.2 := by
    have h := lt_of_lt_of_le hs4 (le_max_left a.spatial_extent.characteristic_length
      b.spatial_extent.characteristic_length)
    nlinarith
  rw [sbMk, if_pos ⟨lt_of_lt_of_le hs1 (le_max_left _ _),
    lt_of_lt_of_le hs2 (le_max_left _ _),
    lt_of_lt_of_le hs3 (le_max_left _ _), hmax4⟩]
  show Except.bind _ _ = _
  rw [Except.bind]
  rw [saaMk, if_pos ⟨lt_min hca0 hcb0, min_le_of_left_le hca1⟩]

/-- C5: merging valid overlapping anomalies whose peak intensities are not
both zero (units matching) yields exactly the anomaly described by the spec:
`FluxIntensity`-added peak, componentwise-max spans, characteristic length
`1.2 × max` (hence at least the max), intensity-weighted center and minimum
confidence. -/
theorem C5_merge_overlapping (a b : SAAAnomaly) (hva : a.Valid) (hvb : b.Valid)
    (hu : a.intensity_peak.units = b.intensity_peak.units)
    (hov : a.overlaps_with b)
    (hnz : ¬ (a.intensity_peak.value = 0 ∧ b.intensity_peak.value = 0)) :
    a.merge_with b = .ok
      ⟨⟨(a.intensity_peak.value * a.center_coordinates.longitude +
          b.intensity_peak.value * b.center_coordinates.longitude) /
          (a.intensity_peak.value + b.intensity_peak.value),
        (a.intensity_peak.value * a.center_coordinates.latitude +
          b.intensity_peak.value * b.center_coordinates.latitude) /
          (a.intensity_peak.value + b.intensity_peak.value),
        (a.intensity_peak.value * a.center_coordinates.altitude +
          b.intensity_peak.value * b.center_coordinates.altitude) /
          (a.intensity_peak.value + b.intensity_peak.value)⟩,
       ⟨a.intensity_peak.value + b.intensity_peak.value,
        Real.sqrt (a.intensity_peak.uncertainty ^ 2 +
          b.intensity_peak.uncertainty ^ 2),
        min a.intensity_peak.confidence_level b.intensity_peak.confidence_level,
        a.intensity_peak.units⟩,
       ⟨max a.spatial_extent.longitude_span b.spatial_extent.longitude_span,
        max a.spatial_extent.latitude_span b.spatial_extent.latitude_span,
        max a.spatial_extent.altitude_span b.spatial_extent.altitude_span,
        max a.spatial_extent.characteristic_length
          b.spatial_extent.characteristic_length * 1.2⟩,
       min a.confidence_level b.confidence_level⟩ ∧
    max a.spatial_extent.characteristic_length
        b.spatial_extent.characteristic_length ≤
      max a.spatial_extent.characteristic_length
        b.spatial_extent.characteristic_length * 1.2 := by
  refine ⟨merge_with_ok a b hva hvb hu hov hnz, ?_⟩
  have h := lt_of_lt_of_le hva.2.2.1.2.2.2
    (le_max_left a.spatial_extent.characteristic_length
      b.spatial_extent.characteristic_length)
  nlinarith

/-- C5 witness: two concrete valid anomalies sharing a center (distance 0,
hence overlapping); applying the claim theorem shows the merge succeeds. -/
theorem C5_merge_overlapping_witness :
    okE ((SAAAnomaly.mk ⟨0, 0, 100⟩ ⟨100, 1, 0.95, .particlesPerCm2PerSecond⟩
        ⟨1, 1, 1, 5⟩ 0.95).merge_with
      ⟨⟨0, 0, 100⟩, ⟨50, 2, 0.9, .particlesPerCm2PerSecond⟩,
        ⟨2, 1, 1, 3⟩, 0.9⟩) = true := by
  rw [(C5_merge_overlapping
    ⟨⟨0, 0, 100⟩, ⟨100, 1, 0.95, .particlesPerCm2PerSecond⟩, ⟨1, 1, 1, 5⟩, 0.95⟩
    ⟨⟨0, 0, 100⟩, ⟨50, 2, 0.9, .particlesPerCm2PerSecond⟩, ⟨2, 1, 1, 3⟩, 0.9⟩
    (by norm_num [SAAAnomaly.Valid, GeographicCoordinates.Valid,
      FluxIntensity.Valid, SpatialBounds.Valid])
    (by norm_num [SAAAnomaly.Valid, GeographicCoordinates.Valid,
      FluxIntensity.Valid, SpatialBounds.Valid])
    rfl
    (by unfold SAAAnomaly.overlaps_with
        rw [distance_to_self]
        norm_num)
    (by norm_num)).1]
  rfl

/-- C6: `merge_with` on a non-overlapping pair (center distance at least
`0.1 ×` the sum of the characteristic lengths) raises `ValueError`; no merged
anomaly is produced. -/
theorem C6_merge_non_overlapping (a b : SAAAnomaly)
    (h : (a.spatial_extent.characteristic_length +
        b.spatial_extent.characteristic_length) * 0.1 ≤
      a.center_coordinates.distance_to b.center_coordinates) :
    a.merge_with b = .error .valueError := by
  unfold SAAAnomaly.merge_with SAAAnomaly.overlaps_with
  rw [if_neg (not_lt.mpr h)]

/-- Helper: concrete haversine evaluation between `(0°, 0°)` and `(180°, 0°)`
(half the equator: `6371 π` km). -/
lemma distance_to_antipodal :
    (GeographicCoordinates.mk 0 0 0).distance_to ⟨180, 0, 0⟩ =
      6371 * Real.pi := by
  unfold GeographicCoordinates.distance_to radians
  have h180 : (180 : ℝ) * (Real.pi / 180) = Real.pi := by ring
  simp only [zero_mul, h180, sub_zero, zero_sub, zero_div]
  norm_num [Real.sin_pi_div_two, Real.sqrt_one, Real.arcsin_one]
  ring

/-- C6 witness: two concrete anomalies whose centers are half an equator
apart while the characteristic lengths sum to 2 km. -/
theorem C6_merge_non_overlapping_witness :
    (SAAAnomaly.mk ⟨0, 0, 0⟩ ⟨100, 1, 0.95, .particlesPerCm2PerSecond⟩
        ⟨1, 1, 1, 1⟩ 0.95).merge_with
      ⟨⟨180, 0, 0⟩, ⟨50, 2, 0.9, .particlesPerCm2PerSecond⟩,
        ⟨1, 1, 1, 1⟩, 0.9⟩ = .error .valueError :=
  C6_merge_non_overlapping
    ⟨⟨0, 0, 0⟩, ⟨100, 1, 0.95, .particlesPerCm2PerSecond⟩, ⟨1, 1, 1, 1⟩, 0.95⟩
    ⟨⟨180, 0, 0⟩, ⟨50, 2, 0.9, .particlesPerCm2PerSecond⟩, ⟨1, 1, 1, 1⟩, 0.9⟩
    (by show ((1 : ℝ) + 1) * 0.1 ≤ _
        rw [show (SAAAnomaly.mk ⟨0, 0, 0⟩
            ⟨100, 1, 0.95, .particlesPerCm2PerSecond⟩ ⟨1, 1, 1, 1⟩
            0.95).center_coordinates = ⟨0, 0, 0⟩ from rfl]
        rw [distance_to_antipodal]
        nlinarith [Real.pi_gt_three])

/-! ## Claims C3 and C4 — epoch validation and early-epoch pole failure. -/

lemma pyMod_nonneg (x m : ℝ) (hm : 0 < m) : 0 ≤ pyMod x m := by
  have h1 : (⌊x / m⌋ : ℝ) ≤ x / m := Int.floor_le _
  have hx : m * (x / m) = x := by field_simp
  unfold pyMod
  nlinarith [mul_le_mul_of_nonneg_left h1 hm.le]

lemma pyMod_lt (x m : ℝ) (hm : 0 < m) : pyMod x m < m := by
  have h2 : x / m < ⌊x / m⌋ + 1 := Int.lt_floor_add_one _
  have hx : m * (x / m) = x := by field_simp
  unfold pyMod
  nlinarith [mul_lt_mul_of_pos_left h2 hm]

/-- Helper: the extrapolated pole position of an epoch no later than 1984 has
latitude above 90°, so its `GeographicCoordinates` construction raises
`ValueError`. -/
lemma pole_position_early_error (e : PyDateTime) (h : e.year ≤ 1984) :
    90 < 86.5 + (-0.1) * ((e.year : ℝ) - 2020.0) ∧
      get_magnetic_pole_position e = .error .valueError := by
  have hy : (e.year : ℝ) ≤ 1984 := by exact_mod_cast h
  have hlat : 90 < 86.5 + (-0.1) * ((e.year : ℝ) - 2020.0) := by nlinarith
  refine ⟨hlat, ?_⟩
  unfold get_magnetic_pole_position geoMk
  have hlo := pyMod_nonneg ((-164.0) + 10.0 * ((e.year : ℝ) - 2020.0) + 180)
    360 (by norm_num)
  have hhi := pyMod_lt ((-164.0) + 10.0 * ((e.year : ℝ) - 2020.0) + 180)
    360 (by norm_num)
  rw [if_pos ⟨by linarith, by linarith⟩, if_neg (by intro hc; linarith [hc.2])]

/-- C4: for a valid epoch of any year from 1900 to 1984 and model available,
the extrapolated magnetic-pole latitude exceeds 90°, pole construction raises
`ValueError`, and `geographic_to_geomagnetic` turns that into
`TransformationError` for every input point (any positive stack budget). -/
theorem C4_early_epoch_transformation_error (fuel : Nat)
    (c : GeographicCoordinates) (e : PyDateTime)
    (hv : validate_epoch e = true) (h1 : 1900 ≤ e.year) (h2 : e.year ≤ 1984) :
    90 < 86.5 + (-0.1) * ((e.year : ℝ) - 2020.0) ∧
    get_magnetic_pole_position e = .error .valueError ∧
    geographic_to_geomagnetic true (fuel + 1) c e =
      .error .transformationError := by
  obtain ⟨hlat, hpole⟩ := pole_position_early_error e h2
  refine ⟨hlat, hpole, ?_⟩
  unfold geographic_to_geomagnetic
  rw [if_pos rfl, if_pos hv, hpole]

/-- C4 witness: epoch 1950-06-15 at the origin point. -/
theorem C4_early_epoch_transformation_error_witness :
    90 < 86.5 + (-0.1) * (((1950 : Int) : ℝ) - 2020.0) ∧
    get_magnetic_pole_position ⟨1950, 6, 15, 0, 0, 0⟩ = .error .valueError ∧
    geographic_to_geomagnetic true 1 ⟨0, 0, 0⟩ ⟨1950, 6, 15, 0, 0, 0⟩ =
      .error .transformationError :=
  C4_early_epoch_transformation_error 0 ⟨0, 0, 0⟩ ⟨1950, 6, 15, 0, 0, 0⟩
    (by decide) (by decide) (by decide)

/-- Helper: with the model available and a valid epoch,
`geographic_to_geomagnetic` never reports `InvalidEpochError`. -/
lemma g2g_no_invalid_epoch (fuel : Nat) (c : GeographicCoordinates)
    (e : PyDateTime) (hv : validate_epoch e = true) :
    geographic_to_geomagnetic true (fuel + 1) c e ≠
      .error .invalidEpochError := by
  unfold geographic_to_geomagnetic
  rw [if_pos rfl, if_pos hv]
  match get_magnetic_pole_position e with
  | .error err => simp
  | .ok pole =>
    simp only
    split <;> simp

/-- Helper: with the model available and an invalid epoch, the epoch check
fires first. -/
lemma g2g_invalid_epoch (fuel : Nat) (c : GeographicCoordinates)
    (e : PyDateTime) (hv : validate_epoch e = false) :
    geographic_to_geomagnetic true (fuel + 1) c e =
      .error .invalidEpochError := by
  unfold geographic_to_geomagnetic
  rw [if_pos rfl, if_neg (by simp [hv])]

lemma m2g_no_invalid_epoch (c : GeomagneticCoordinates) (e : PyDateTime)
    (hv : validate_epoch e = true) :
    geomagnetic_to_geographic true c e ≠ .error .invalidEpochError := by
  unfold geomagnetic_to_geographic
  rw [if_pos rfl, if_pos hv]
  match get_magnetic_pole_position e with
  | .error err => simp
  | .ok pole =>
    simp only
    split <;> simp

lemma m2g_invalid_epoch (c : GeomagneticCoordinates) (e : PyDateTime)
    (hv : validate_epoch e = false) :
    geomagnetic_to_geographic true c e = .error .invalidEpochError := by
  unfold geomagnetic_to_geographic
  rw [if_pos rfl, if_neg (by simp [hv])]

lemma validate_epoch_year_out (e : PyDateTime)
    (h : e.year ≤ 1899 ∨ 2031 ≤ e.year) : validate_epoch e = false := by
  rcases h with h | h
  · have h1 : ¬ epochLo.year < e.year := by simp [epochLo]; omega
    have h2 : e.year < epochLo.year := by simp [epochLo]; omega
    simp [validate_epoch, PyDateTime.le, h1, h2]
  · have h1 : epochHi.year < e.year := by simp [epochHi]; omega
    have h2 : ¬ e.year < epochHi.year := by simp [epochHi]; omega
    simp [validate_epoch, PyDateTime.le, h1, h2]

lemma validate_epoch_year_2020 (e : PyDateTime) (h : e.year = 2020) :
    validate_epoch e = true := by
  have h1 : epochLo.year < e.year := by simp [epochLo]; omega
  have h2 : e.year < epochHi.year := by simp [epochHi]; omega
  simp [validate_epoch, PyDateTime.le, h1, h2]

/-- C3 (amended): `geographic_to_geomagnetic` and `geomagnetic_to_geographic`
fail with `InvalidEpochError` exactly when the epoch lies outside
[1900-01-01, 2030-12-31] (model available); any year-1899 or year-2031 epoch
is outside and any year-2020 epoch inside that range.
`calculate_magnetic_field`, however, performs no epoch validation: with the
model available it always succeeds, for out-of-range epochs included. -/
theorem C3_epoch_validation (fuel : Nat) :
    (∀ (c : GeographicCoordinates) (e : PyDateTime),
      geographic_to_geomagnetic true (fuel + 1) c e =
          .error .invalidEpochError ↔ validate_epoch e = false) ∧
    (∀ (c : GeomagneticCoordinates) (e : PyDateTime),
      geomagnetic_to_geographic true c e = .error .invalidEpochError ↔
        validate_epoch e = false) ∧
    (∀ (c : GeographicCoordinates) (e : PyDateTime),
      okE (calculate_magnetic_field true c e) = true) ∧
    (∀ e : PyDateTime, e.year ≤ 1899 ∨ 2031 ≤ e.year →
      validate_epoch e = false) ∧
    (∀ e : PyDateTime, e.year = 2020 → validate_epoch e = true) := by
  refine ⟨fun c e => ⟨fun h => ?_, g2g_invalid_epoch fuel c e⟩,
    fun c e => ⟨fun h => ?_, m2g_invalid_epoch c e⟩,
    fun c e => rfl, validate_epoch_year_out, validate_epoch_year_2020⟩
  · by_contra hne
    exact g2g_no_invalid_epoch fuel c e (by
      cases hb : validate_epoch e
      · exact absurd hb hne
      · rfl) h
  · by_contra hne
    exact m2g_no_invalid_epoch c e (by
      cases hb : validate_epoch e
      · exact absurd hb hne
      · rfl) h

/-- C3 witness: the year-1899 epoch is rejected by the geographic transform
while the year-2020 epoch passes validation. -/
theorem C3_epoch_validation_witness :
    geographic_to_geomagnetic true 1 ⟨0, 0, 0⟩ ⟨1899, 6, 1, 0, 0, 0⟩ =
      .error .invalidEpochError ∧
    validate_epoch ⟨2020, 6, 1, 0, 0, 0⟩ = true := by
  have h := C3_epoch_validation 0
  exact ⟨(h.1 ⟨0, 0, 0⟩ ⟨1899, 6, 1, 0, 0, 0⟩).mpr
      (h.2.2.2.1 ⟨1899, 6, 1, 0, 0, 0⟩ (by decide)),
    h.2.2.2.2 ⟨2020, 6, 1, 0, 0, 0⟩ (by decide)⟩

/-- C3 counterexample to the claim as stated: an epoch in year 1899 — outside
the valid range — is not rejected by `calculate_magnetic_field`; the call
succeeds because that entry point never validates the epoch. -/
theorem C3_epoch_validation_counterexample :
    validate_epoch ⟨1899, 6, 1, 0, 0, 0⟩ = false ∧
    okE (calculate_magnetic_field true ⟨0, 0, 500⟩ ⟨1899, 6, 1, 0, 0, 0⟩) =
      true := ⟨rfl, rfl⟩

/-- Helper: a left `max`-fold only grows its accumulator. -/
lemma le_foldl_max (xs : List ℝ) : ∀ x : ℝ, x ≤ xs.foldl max x := by
  induction xs with
  | nil => intro x; exact le_refl x
  | cons h t ih => intro x; exact le_trans (le_max_left x h) (ih (max x h))

/-- C8: on exactly one flux sample (whose `total_flux` is defined) and a
non-empty grid, `_interpolate_flux_field` returns exactly the spec's
exponential-falloff field from the sample's measurement coordinate. -/
theorem C8_single_sample_falloff
    (rbf : List (ℝ × ℝ × ℝ) → List ℝ → List (ℝ × ℝ × ℝ) →
      Except PyErr (List ℝ))
    (d : FluxData) (g0 : ℝ × ℝ × ℝ) (grid : List (ℝ × ℝ × ℝ))
    (t : FluxIntensity) (ht : totalFlux d = .ok t) :
    interpolate_flux_field rbf [d] (g0 :: grid) =
      .ok (specSingleSampleFalloff t.value (placeholderCoord 0) (g0 :: grid)) := by
  unfold interpolate_flux_field specSingleSampleFalloff
  rw [if_neg (by simp)]
  simp only [fluxValuesOf, ht, List.length_singleton, if_true, List.headI,
    List.map_cons, npMax, reduceIte]
  set dm := (grid.map fun g => euclid g (placeholderCoord 0)).foldl max
    (euclid g0 (placeholderCoord 0)) with hdm
  have hnn : 0 ≤ dm := le_trans (Real.sqrt_nonneg _) (le_foldl_max _ _)
  by_cases hpos : 0 < dm
  · rw [if_pos hpos]
    have hne : ¬ dm = 0 := ne_of_gt hpos
    simp only [hne, if_neg, if_false, List.map_cons, List.map_map]
    congr 1
    congr 1
    · rw [mul_comm dm 0.3]
    · apply List.map_congr_left
      intro a _
      simp only [Function.comp_apply]
      rw [mul_comm dm 0.3]
  · have hz : dm = 0 := le_antisymm (not_lt.mp hpos) hnn
    rw [if_neg hpos]
    simp [hz]

/-- C8 witness: one concrete sample over a one-point grid. -/
theorem C8_single_sample_falloff_witness :
    interpolate_flux_field (fun _ _ _ => .error .valueError)
      [⟨⟨5, 1, 0.95, .particlesPerCm2PerSecond⟩,
        ⟨3, 2, 0.95, .particlesPerCm2PerSecond⟩,
        ⟨2020, 1, 1, 0, 0, 0⟩, .high⟩] [(0, 0, 0)] =
      .ok (specSingleSampleFalloff
        (FluxIntensity.mk ((5 : ℝ) + 3) (Real.sqrt ((1 : ℝ) ^ 2 + (2 : ℝ) ^ 2))
          (min (0.95 : ℝ) 0.95) .particlesPerCm2PerSecond).value
        (placeholderCoord 0) [(0, 0, 0)]) :=
  C8_single_sample_falloff (fun _ _ _ => .error .valueError)
    ⟨⟨5, 1, 0.95, .particlesPerCm2PerSecond⟩,
      ⟨3, 2, 0.95, .particlesPerCm2PerSecond⟩, ⟨2020, 1, 1, 0, 0, 0⟩, .high⟩
    (0, 0, 0) []
    ⟨(5 : ℝ) + 3, Real.sqrt ((1 : ℝ) ^ 2 + (2 : ℝ) ^ 2),
      min (0.95 : ℝ) 0.95, .particlesPerCm2PerSecond⟩
    (by unfold totalFlux
        rw [if_neg (by simp)]
        exact fluxAdd_valid_ok _ _ (by norm_num [FluxIntensity.Valid])
          (by norm_num [FluxIntensity.Valid]) rfl)

/-! ## Claim C1 — zero valid samples after quality filtering. -/

/-- C1: whenever retrieval succeeds but quality filtering leaves zero valid
samples, `analyze_region` fails with `AnalysisError` for every region,
analysis id, resolution and manifold flag — no partial result is returned. -/
theorem C1_empty_after_filter {M : Type} (deps : AnalysisDeps M)
    (region : GeographicRegion) (analysis_id : Nat) (resolution : Option ℝ)
    (include_manifold : Bool) (raw : List FluxData)
    (hget : deps.get_flux_in_region region resolution = .ok raw)
    (hfilter : raw.filter is_valid_flux_data = []) :
    analyze_region deps region analysis_id resolution include_manifold =
      .error .analysisError := by
  unfold analyze_region
  rw [hget]
  simp only [hfilter, List.isEmpty_nil, if_true]

/-- C1 witness: a retrieval returning a single low-quality sample, which the
filter drops. -/
theorem C1_empty_after_filter_witness :
    analyze_region (M := Unit)
      ⟨fun _ _ => .ok [⟨⟨5, 1, 0.95, .particlesPerCm2PerSecond⟩,
          ⟨3, 2, 0.95, .particlesPerCm2PerSecond⟩,
          ⟨2020, 1, 1, 0, 0, 0⟩, .low⟩],
        fun _ => .error .transformationError,
        fun _ _ => .ok [],
        fun _ _ _ => .ok (),
        fun _ => .ok ()⟩
      ⟨-90, 0, -50, 0, 400, 800⟩ 7 none true = .error .analysisError :=
  C1_empty_after_filter _ _ 7 none true _ rfl
    (by simp [List.filter, is_valid_flux_data])

/-! ## Claim C2 — a publish failure fails the whole analysis. -/

/-- C2 counterexample to the claim as stated: retrieval, filtering, detection
all succeed (manifold generation not requested), but the publisher fails —
and `analyze_region` raises `AnalysisError` instead of returning the
assembled result. -/
theorem C2_publish_failure_counterexample :
    analyze_region (M := Unit)
      ⟨fun _ _ => .ok [⟨⟨5, 1, 0.95, .particlesPerCm2PerSecond⟩,
          ⟨3, 2, 0.95, .particlesPerCm2PerSecond⟩,
          ⟨2020, 1, 1, 0, 0, 0⟩, .high⟩],
        fun _ => .error .transformationError,
        fun _ _ => .ok [],
        fun _ _ _ => .ok (),
        fun _ => .error .valueError⟩
      ⟨-90, 0, -50, 0, 400, 800⟩ 7 none false = .error .analysisError := by
  unfold analyze_region
  simp only
  rw [if_neg (by simp [List.filter, is_valid_flux_data])]
  split <;> rfl

/-- C2 (amended): when retrieval, filtering, detection and (if requested)
manifold generation all succeed but the completion-event publish fails,
`analyze_region` does not return the assembled result: the publish exception
is wrapped and re-raised as `AnalysisError`. -/
theorem C2_publish_failure_fails_analysis {M : Type} (deps : AnalysisDeps M)
    (region : GeographicRegion) (analysis_id : Nat) (resolution : Option ℝ)
    (include_manifold : Bool) (raw : List FluxData)
    (anomalies : List SAAAnomaly) (manifold_data : Option M) (perr : PyErr)
    (hget : deps.get_flux_in_region region resolution = .ok raw)
    (hne : raw.filter is_valid_flux_data ≠ [])
    (hdet : deps.detect (raw.filter is_valid_flux_data) region = .ok anomalies)
    (hman : (if include_manifold then
        (deps.generate_manifold (raw.filter is_valid_flux_data) region
          anomalies).map some
      else .ok none) = .ok manifold_data)
    (hpub : deps.publish ⟨analysis_id, region, anomalies.length⟩ =
      .error perr) :
    analyze_region deps region analysis_id resolution include_manifold =
      .error .analysisError := by
  unfold analyze_region
  rw [hget]
  simp only
  rw [if_neg (by simpa [List.isEmpty_iff] using hne), hdet]
  simp only
  rw [hman]
  simp only
  rw [hpub]

/-- C2 (amended) witness: the same concrete collaborators as the
counterexample, routed through the amended theorem. -/
theorem C2_publish_failure_fails_analysis_witness :
    analyze_region (M := Unit)
      ⟨fun _ _ => .ok [⟨⟨6, 1, 0.95, .particlesPerCm2PerSecond⟩,
          ⟨2, 2, 0.95, .particlesPerCm2PerSecond⟩,
          ⟨2021, 1, 1, 0, 0, 0⟩, .medium⟩],
        fun _ => .error .transformationError,
        fun _ _ => .ok [],
        fun _ _ _ => .ok (),
        fun _ => .error .valueError⟩
      ⟨-90, 0, -50, 0, 400, 800⟩ 9 none false = .error .analysisError :=
  C2_publish_failure_fails_analysis _ _ 9 none false _ [] none .valueError
    rfl (by simp [List.filter, is_valid_flux_data])
    (by simp [List.filter, is_valid_flux_data]) rfl rfl


/-! ## Claim C10 — bounds on every detected anomaly. -/

lemma absorbOverlaps_length (l : List SAAAnomaly) :
    ∀ (a c : SAAAnomaly) (rem : List SAAAnomaly),
      absorbOverlaps a l = .ok (c, rem) → rem.length ≤ l.length := by
  induction l with
  | nil =>
    intro a c rem h
    unfold absorbOverlaps at h
    cases h
    exact le_refl 0
  | cons b rest ih =>
    intro a c rem h
    unfold absorbOverlaps at h
    split at h
    · split at h
      · exact absurd h (by simp)
      · exact le_trans (ih _ _ _ h) (Nat.le_succ _)
    · split at h
      · exact absurd h (by simp)
      · rename_i c' rem' heq
        cases h
        simpa using Nat.succ_le_succ (ih _ _ _ heq)

lemma validate_anomalies_bounds (l : List SAAAnomaly) :
    ∀ a ∈ validate_anomalies l, anomalyBounds a := by
  intro a ha
  unfold validate_anomalies at ha
  obtain ⟨_, hcond⟩ := List.mem_filter.mp ha
  have h := of_decide_eq_true hcond
  exact ⟨not_lt.mp h.2.1, not_lt.mp h.1⟩

lemma saaMk_ok_inv {c : GeographicCoordinates} {p : FluxIntensity}
    {s : SpatialBounds} {conf : ℝ} {m : SAAAnomaly}
    (h : saaMk c p s conf = .ok m) : m = ⟨c, p, s, conf⟩ := by
  unfold saaMk at h
  split at h
  · cases h; rfl
  · exact absurd h (by simp)

lemma sbMk_ok_inv {a b c d : ℝ} {s : SpatialBounds}
    (h : sbMk a b c d = .ok s) : s = ⟨a, b, c, d⟩ := by
  unfold sbMk at h
  split at h
  · cases h; rfl
  · exact absurd h (by simp)

/-- Helper: `merge_with` preserves the two claimed bounds (confidence is the
minimum of two values ≥ 0.9; characteristic length is `1.2 ×` a maximum of
values ≥ 50). -/
lemma merge_with_bounds {a b m : SAAAnomaly} (h : a.merge_with b = .ok m)
    (ha : anomalyBounds a) (hb : anomalyBounds b) : anomalyBounds m := by
  unfold SAAAnomaly.merge_with at h
  split at h
  · split at h
    · exact absurd h (by simp)
    · simp only [bind, Except.bind] at h
      split at h
      · exact absurd h (by simp)
      · split at h
        · exact absurd h (by simp)
        · split at h
          · exact absurd h (by simp)
          · rename_i se hse
            have hm := saaMk_ok_inv h
            subst hm
            have hs := sbMk_ok_inv hse
            subst hs
            refine ⟨le_min ha.1 hb.1, ?_⟩
            show (50.0 : ℝ) ≤ max a.spatial_extent.characteristic_length
              b.spatial_extent.characteristic_length * 1.2
            have h50 : (50.0 : ℝ) ≤ max a.spatial_extent.characteristic_length
                b.spatial_extent.characteristic_length :=
              le_trans ha.2 (le_max_left _ _)
            nlinarith
  · exact absurd h (by simp)

lemma absorbOverlaps_bounds (l : List SAAAnomaly) :
    ∀ (a c : SAAAnomaly) (rem : List SAAAnomaly),
      absorbOverlaps a l = .ok (c, rem) → anomalyBounds a →
      (∀ b ∈ l, anomalyBounds b) →
      anomalyBounds c ∧ ∀ b ∈ rem, anomalyBounds b := by
  induction l with
  | nil =>
    intro a c rem h ha _
    unfold absorbOverlaps at h
    cases h
    exact ⟨ha, by simp⟩
  | cons b rest ih =>
    intro a c rem h ha hl
    unfold absorbOverlaps at h
    split at h
    · split at h
      · exact absurd h (by simp)
      · rename_i m hm
        exact ih m c rem h (merge_with_bounds hm ha (hl b (by simp)))
          (fun x hx => hl x (by simp [hx]))
    · cases habs : absorbOverlaps a rest with
      | error err =>
        rw [habs] at h
        exact absurd h (by simp)
      | ok p =>
        rw [habs] at h
        obtain ⟨cc, rem2⟩ := p
        simp only at h
        cases h
        obtain ⟨h1, h2⟩ := ih a c rem2 habs ha (fun x hx => hl x (by simp [hx]))
        refine ⟨h1, fun x hx => ?_⟩
        rcases List.mem_cons.mp hx with rfl | hx
        · exact hl x (by simp)
        · exact h2 x hx

lemma mergePass_bounds (n : Nat) :
    ∀ l : List SAAAnomaly, l.length ≤ n → (∀ a ∈ l, anomalyBounds a) →
      ∀ out, mergePass l = .ok out → ∀ a ∈ out, anomalyBounds a := by
  induction n with
  | zero =>
    intro l hlen _ out hout
    have hl : l = [] := List.eq_nil_of_length_eq_zero (Nat.le_zero.mp hlen)
    subst hl
    unfold mergePass at hout
    cases hout
    simp
  | succ n ih =>
    intro l hlen hall out hout
    match l with
    | [] =>
      unfold mergePass at hout
      cases hout
      simp
    | a :: rest =>
      rw [mergePass] at hout
      split at hout
      · exact absurd hout (by simp)
      · rename_i c rem habs
        split at hout
        · exact absurd hout (by simp)
        · rename_i tail htail
          cases hout
          obtain ⟨hc, hrem⟩ := absorbOverlaps_bounds rest a c rem habs
            (hall a (by simp)) (fun x hx => hall x (by simp [hx]))
          have hlen' : rem.length ≤ n :=
            le_trans (absorbOverlaps_length rest a c rem habs)
              (by simpa using Nat.le_of_succ_le_succ hlen)
          intro x hx
          rcases List.mem_cons.mp hx with rfl | hx
          · exact hc
          · exact ih rem hlen' hrem tail htail x hx

/-- C10: every anomaly in a successful `detect_anomalies` result (default
parameters) has confidence at least 0.9 and characteristic length at least
50 km — the validation filter enforces both bounds and the single
overlap-merge pass preserves them. -/
theorem C10_detected_anomaly_bounds (flux_data : List FluxData)
    (region : GeographicRegion) :
    allDetectedBounded (detect_anomalies flux_data region) := by
  unfold detect_anomalies
  split
  · simp [allDetectedBounded]
  · split
    · rename_i r heq
      simp only [bind, Except.bind] at heq
      split at heq
      · exact absurd heq (by simp)
      · split at heq
        · exact absurd heq (by simp)
        · rename_i clustered hclustered
          unfold merge_overlapping_anomalies at heq
          split at heq
          · cases heq
            simpa [allDetectedBounded] using validate_anomalies_bounds clustered
          · simpa [allDetectedBounded] using
              mergePass_bounds (validate_anomalies clustered).length
                (validate_anomalies clustered) (le_refl _)
                (validate_anomalies_bounds clustered) r heq
    · simp [allDetectedBounded]

end
